import Mathlib

/-!
Shallow embedding of the QueryFlow analytics data model
(src/test-projects/django-app/analytics/models.py) together with the
Record Store semantics it is managed by.

The source file declares four persistent record types (Dashboard, Chart,
DataSource, Report) with typed fields, defaults, enumerated choices,
foreign keys with cascade-on-delete, and a default retrieval order.
The CRUD store that interprets those declarations is the framework's
object-relational layer and is not part of the repository source, so the
store operations below are modelled from the spec (create / get /
update / delete / list, §4.1) while every schema fact they consult —
field names, defaults, enumerated value sets, cascade edges, ordering —
is translated directly from the declarations in models.py.

Timestamps are modelled by a logical clock in the store that advances on
every mutating operation; `auto_now_add` assigns the creation instant
and `auto_now` reassigns the mutation instant, as the declarations say.
Opaque payloads (JSON blobs, cron strings) are modelled as strings.
-/

/-- Error kinds of the Record Store (spec §7). -/
inductive StoreError where
  | NotFoundError
  | ValidationError
  | ReferentialIntegrityError
deriving DecidableEq

/-- `Dashboard` record: title, description, owner FK (CASCADE),
is_public (default False), created_at (auto_now_add), updated_at (auto_now). -/
structure Dashboard where
  title : String
  description : String
  owner : Nat
  is_public : Bool
  created_at : Nat
  updated_at : Nat
deriving DecidableEq

/-- `Chart.CHART_TYPES`: the enumerated stored values of `chart_type`. -/
def CHART_TYPES : List String := ["bar", "line", "pie", "scatter", "area"]

/-- `Chart` record: title, chart_type (choices=CHART_TYPES), dashboard FK
(CASCADE), data_source and config JSON blobs, position_x/position_y
(default 0), width (default 400), height (default 300), timestamps. -/
structure Chart where
  title : String
  chart_type : String
  dashboard : Nat
  data_source : String
  config : String
  position_x : Int
  position_y : Int
  width : Int
  height : Int
  created_at : Nat
  updated_at : Nat
deriving DecidableEq

/-- `DataSource` record: name, source_type (free-form), connection_config
blob, query text, refresh_interval (IntegerField, default 3600),
last_refresh (nullable), is_active (default True), timestamps. -/
structure DataSource where
  name : String
  source_type : String
  connection_config : String
  query : String
  refresh_interval : Int
  last_refresh : Option Nat
  is_active : Bool
  created_at : Nat
  updated_at : Nat
deriving DecidableEq

/-- The enumerated stored values of `Report.format`. -/
def REPORT_FORMATS : List String := ["pdf", "html", "csv", "json"]

/-- `Report` record: title, dashboard FK (CASCADE), schedule (cron text),
recipients blob, format (choices, default 'pdf'), is_active (default
True), last_run / next_run (nullable), timestamps. -/
structure Report where
  title : String
  dashboard : Nat
  schedule : String
  recipients : String
  format : String
  is_active : Bool
  last_run : Option Nat
  next_run : Option Nat
  created_at : Nat
  updated_at : Nat
deriving DecidableEq

/-- Field set for creating a Dashboard; fields with a declared default
may be omitted (`none`). -/
structure DashboardFields where
  title : String
  description : String
  owner : Nat
  is_public : Option Bool := none
deriving DecidableEq

/-- Field set for creating a Chart. -/
structure ChartFields where
  title : String
  chart_type : String
  dashboard : Nat
  data_source : String
  config : String
  position_x : Option Int := none
  position_y : Option Int := none
  width : Option Int := none
  height : Option Int := none
deriving DecidableEq

/-- Field set for creating a DataSource. -/
structure DataSourceFields where
  name : String
  source_type : String
  connection_config : String
  query : String
  refresh_interval : Option Int := none
  last_refresh : Option Nat := none
  is_active : Option Bool := none
deriving DecidableEq

/-- Field set for creating a Report. -/
structure ReportFields where
  title : String
  dashboard : Nat
  schedule : String
  recipients : String
  format : Option String := none
  is_active : Option Bool := none
  last_run : Option Nat := none
  next_run : Option Nat := none
deriving DecidableEq

/-- Partial field set for updating a Dashboard (untouched fields `none`). -/
structure DashboardPatch where
  title : Option String := none
  description : Option String := none
  owner : Option Nat := none
  is_public : Option Bool := none
deriving DecidableEq

/-- Partial field set for updating a Chart. -/
structure ChartPatch where
  title : Option String := none
  chart_type : Option String := none
  dashboard : Option Nat := none
  data_source : Option String := none
  config : Option String := none
  position_x : Option Int := none
  position_y : Option Int := none
  width : Option Int := none
  height : Option Int := none
deriving DecidableEq

/-- Partial field set for updating a DataSource. -/
structure DataSourcePatch where
  name : Option String := none
  source_type : Option String := none
  connection_config : Option String := none
  query : Option String := none
  refresh_interval : Option Int := none
  last_refresh : Option (Option Nat) := none
  is_active : Option Bool := none
deriving DecidableEq

/-- Partial field set for updating a Report. -/
structure ReportPatch where
  title : Option String := none
  dashboard : Option Nat := none
  schedule : Option String := none
  recipients : Option String := none
  format : Option String := none
  is_active : Option Bool := none
  last_run : Option (Option Nat) := none
  next_run : Option (Option Nat) := none
deriving DecidableEq

/-- The persisted record set: one keyed table per entity type, the set of
existing User ids (the User entity itself lives outside the source), a
fresh-identity counter and the logical clock. -/
structure Store where
  users : List Nat
  dashboards : List (Nat × Dashboard)
  charts : List (Nat × Chart)
  dataSources : List (Nat × DataSource)
  reports : List (Nat × Report)
  nextId : Nat
  clock : Nat
deriving DecidableEq

/-- The empty store. -/
def initStore : Store :=
  { users := [], dashboards := [], charts := [], dataSources := [],
    reports := [], nextId := 0, clock := 0 }

/-- Look a record up by identity in a keyed table. -/
def lookupRec (l : List (Nat × α)) (id : Nat) : Option α :=
  (l.find? (fun p => p.1 == id)).map Prod.snd

/-- Modelled from the spec: `create` for Dashboard (§4.1); the framework
store itself is not in the source. Validates that the owner foreign key
resolves to an existing User, assigns both timestamps the creation
instant, persists the record and returns its fresh identity. -/
def createDashboard (s : Store) (f : DashboardFields) :
    Except StoreError (Nat × Store) :=
  if s.users.contains f.owner then
    .ok (s.nextId,
      { s with
          dashboards := (s.nextId,
            { title := f.title, description := f.description,
              owner := f.owner, is_public := f.is_public.getD false,
              created_at := s.clock, updated_at := s.clock }) ::
            s.dashboards,
          nextId := s.nextId + 1, clock := s.clock + 1 })
  else .error .ValidationError

/-- Modelled from the spec: `create` for Chart (§4.1). Validates enum
membership of chart_type (choices=CHART_TYPES in the source) and that
the dashboard foreign key resolves; fills the declared defaults. -/
def createChart (s : Store) (f : ChartFields) :
    Except StoreError (Nat × Store) :=
  if CHART_TYPES.contains f.chart_type then
    if (lookupRec s.dashboards f.dashboard).isSome then
      .ok (s.nextId,
        { s with
            charts := (s.nextId,
              { title := f.title, chart_type := f.chart_type,
                dashboard := f.dashboard, data_source := f.data_source,
                config := f.config, position_x := f.position_x.getD 0,
                position_y := f.position_y.getD 0,
                width := f.width.getD 400, height := f.height.getD 300,
                created_at := s.clock, updated_at := s.clock }) ::
              s.charts,
            nextId := s.nextId + 1, clock := s.clock + 1 })
    else .error .ValidationError
  else .error .ValidationError

/-- Modelled from the spec: `create` for DataSource (§4.1). The source
declares no enumerated choices and no foreign key on DataSource, so the
only work is filling the declared defaults (refresh_interval 3600,
is_active True, last_refresh null). -/
def createDataSource (s : Store) (f : DataSourceFields) :
    Except StoreError (Nat × Store) :=
  .ok (s.nextId,
    { s with
        dataSources := (s.nextId,
          { name := f.name, source_type := f.source_type,
            connection_config := f.connection_config, query := f.query,
            refresh_interval := f.refresh_interval.getD 3600,
            last_refresh := f.last_refresh,
            is_active := f.is_active.getD true,
            created_at := s.clock, updated_at := s.clock }) ::
          s.dataSources,
        nextId := s.nextId + 1, clock := s.clock + 1 })

/-- Modelled from the spec: `create` for Report (§4.1). Validates enum
membership of format when given (default 'pdf') and that the dashboard
foreign key resolves; fills declared defaults. -/
def createReport (s : Store) (f : ReportFields) :
    Except StoreError (Nat × Store) :=
  if (f.format.map REPORT_FORMATS.contains).getD true then
    if (lookupRec s.dashboards f.dashboard).isSome then
      .ok (s.nextId,
        { s with
            reports := (s.nextId,
              { title := f.title, dashboard := f.dashboard,
                schedule := f.schedule, recipients := f.recipients,
                format := f.format.getD "pdf",
                is_active := f.is_active.getD true,
                last_run := f.last_run, next_run := f.next_run,
                created_at := s.clock, updated_at := s.clock }) ::
              s.reports,
            nextId := s.nextId + 1, clock := s.clock + 1 })
    else .error .ValidationError
  else .error .ValidationError

/-- Modelled from the spec: `get` (§4.1) — the record or NotFoundError. -/
def getDashboard (s : Store) (id : Nat) : Except StoreError Dashboard :=
  match lookupRec s.dashboards id with
  | some r => .ok r
  | none => .error .NotFoundError

/-- Modelled from the spec: `get` for Chart. -/
def getChart (s : Store) (id : Nat) : Except StoreError Chart :=
  match lookupRec s.charts id with
  | some r => .ok r
  | none => .error .NotFoundError

/-- Modelled from the spec: `get` for DataSource. -/
def getDataSource (s : Store) (id : Nat) : Except StoreError DataSource :=
  match lookupRec s.dataSources id with
  | some r => .ok r
  | none => .error .NotFoundError

/-- Modelled from the spec: `get` for Report. -/
def getReport (s : Store) (id : Nat) : Except StoreError Report :=
  match lookupRec s.reports id with
  | some r => .ok r
  | none => .error .NotFoundError

/-- Apply an update's touched fields to a Dashboard record; created_at is
kept, updated_at is refreshed to the mutation instant (auto_now). -/
def applyDashboardPatch (p : DashboardPatch) (now : Nat) (r : Dashboard) :
    Dashboard :=
  { title := p.title.getD r.title,
    description := p.description.getD r.description,
    owner := p.owner.getD r.owner,
    is_public := p.is_public.getD r.is_public,
    created_at := r.created_at, updated_at := now }

/-- Apply an update's touched fields to a Chart record. -/
def applyChartPatch (p : ChartPatch) (now : Nat) (r : Chart) : Chart :=
  { title := p.title.getD r.title,
    chart_type := p.chart_type.getD r.chart_type,
    dashboard := p.dashboard.getD r.dashboard,
    data_source := p.data_source.getD r.data_source,
    config := p.config.getD r.config,
    position_x := p.position_x.getD r.position_x,
    position_y := p.position_y.getD r.position_y,
    width := p.width.getD r.width, height := p.height.getD r.height,
    created_at := r.created_at, updated_at := now }

/-- Apply an update's touched fields to a DataSource record. -/
def applyDataSourcePatch (p : DataSourcePatch) (now : Nat) (r : DataSource) :
    DataSource :=
  { name := p.name.getD r.name,
    source_type := p.source_type.getD r.source_type,
    connection_config := p.connection_config.getD r.connection_config,
    query := p.query.getD r.query,
    refresh_interval := p.refresh_interval.getD r.refresh_interval,
    last_refresh := p.last_refresh.getD r.last_refresh,
    is_active := p.is_active.getD r.is_active,
    created_at := r.created_at, updated_at := now }

/-- Apply an update's touched fields to a Report record. -/
def applyReportPatch (p : ReportPatch) (now : Nat) (r : Report) : Report :=
  { title := p.title.getD r.title,
    dashboard := p.dashboard.getD r.dashboard,
    schedule := p.schedule.getD r.schedule,
    recipients := p.recipients.getD r.recipients,
    format := p.format.getD r.format,
    is_active := p.is_active.getD r.is_active,
    last_run := p.last_run.getD r.last_run,
    next_run := p.next_run.getD r.next_run,
    created_at := r.created_at, updated_at := now }

/-- Validation of a Dashboard update: a touched owner must resolve. -/
def validDashboardPatch (s : Store) (p : DashboardPatch) : Bool :=
  (p.owner.map s.users.contains).getD true

/-- Validation of a Chart update: a touched chart_type must be one of the
enumerated values, a touched dashboard must resolve. -/
def validChartPatch (s : Store) (p : ChartPatch) : Bool :=
  (p.chart_type.map CHART_TYPES.contains).getD true &&
  (p.dashboard.map (fun d => (lookupRec s.dashboards d).isSome)).getD true

/-- Validation of a Report update. -/
def validReportPatch (s : Store) (p : ReportPatch) : Bool :=
  (p.format.map REPORT_FORMATS.contains).getD true &&
  (p.dashboard.map (fun d => (lookupRec s.dashboards d).isSome)).getD true

/-- Replace the record stored under `id` by its patched version. -/
def patchTable (l : List (Nat × α)) (id : Nat) (f : α → α) :
    List (Nat × α) :=
  l.map (fun q => if q.1 == id then (q.1, f q.2) else q)

/-- Modelled from the spec: `update` for Dashboard (§4.1) — NotFoundError
when the identity is absent, ValidationError as in create for touched
fields, otherwise refreshes updated_at and persists the touched fields. -/
def updateDashboard (s : Store) (id : Nat) (p : DashboardPatch) :
    Except StoreError Store :=
  match lookupRec s.dashboards id with
  | none => .error .NotFoundError
  | some _ =>
    if validDashboardPatch s p then
      .ok { s with
              dashboards := patchTable s.dashboards id
                (applyDashboardPatch p s.clock),
              clock := s.clock + 1 }
    else .error .ValidationError

/-- Modelled from the spec: `update` for Chart. -/
def updateChart (s : Store) (id : Nat) (p : ChartPatch) :
    Except StoreError Store :=
  match lookupRec s.charts id with
  | none => .error .NotFoundError
  | some _ =>
    if validChartPatch s p then
      .ok { s with
              charts := patchTable s.charts id (applyChartPatch p s.clock),
              clock := s.clock + 1 }
    else .error .ValidationError

/-- Modelled from the spec: `update` for DataSource; the source declares
no enumerated choices and no foreign key, so no field check applies. -/
def updateDataSource (s : Store) (id : Nat) (p : DataSourcePatch) :
    Except StoreError Store :=
  match lookupRec s.dataSources id with
  | none => .error .NotFoundError
  | some _ =>
    .ok { s with
            dataSources := patchTable s.dataSources id
              (applyDataSourcePatch p s.clock),
            clock := s.clock + 1 }

/-- Modelled from the spec: `update` for Report. -/
def updateReport (s : Store) (id : Nat) (p : ReportPatch) :
    Except StoreError Store :=
  match lookupRec s.reports id with
  | none => .error .NotFoundError
  | some _ =>
    if validReportPatch s p then
      .ok { s with
              reports := patchTable s.reports id (applyReportPatch p s.clock),
              clock := s.clock + 1 }
    else .error .ValidationError

/-- Modelled from the spec: `delete` for Dashboard (§4.1). Removes the
record and cascades to every Chart and Report whose dashboard foreign
key references it (on_delete=CASCADE on both foreign keys in the
source); NotFoundError when the identity is absent. -/
def deleteDashboard (s : Store) (id : Nat) : Except StoreError Store :=
  match lookupRec s.dashboards id with
  | none => .error .NotFoundError
  | some _ =>
    .ok { s with
            dashboards := s.dashboards.filter (fun p => p.1 != id),
            charts := s.charts.filter (fun p => p.2.dashboard != id),
            reports := s.reports.filter (fun p => p.2.dashboard != id),
            clock := s.clock + 1 }

/-- Modelled from the spec: `delete` for Chart (no cascade edge leaves a
Chart in the source). -/
def deleteChart (s : Store) (id : Nat) : Except StoreError Store :=
  match lookupRec s.charts id with
  | none => .error .NotFoundError
  | some _ =>
    .ok { s with charts := s.charts.filter (fun p => p.1 != id),
                 clock := s.clock + 1 }

/-- Modelled from the spec: `delete` for DataSource (independently owned,
no cascade relation declared in the source). -/
def deleteDataSource (s : Store) (id : Nat) : Except StoreError Store :=
  match lookupRec s.dataSources id with
  | none => .error .NotFoundError
  | some _ =>
    .ok { s with dataSources := s.dataSources.filter (fun p => p.1 != id),
                 clock := s.clock + 1 }

/-- Modelled from the spec: `delete` for Report. -/
def deleteReport (s : Store) (id : Nat) : Except StoreError Store :=
  match lookupRec s.reports id with
  | none => .error .NotFoundError
  | some _ =>
    .ok { s with reports := s.reports.filter (fun p => p.1 != id),
                 clock := s.clock + 1 }

/-- Register a User identity (the User entity is external to the source;
only its identity matters for the owner foreign key). -/
def addUser (s : Store) (u : Nat) : Store :=
  if s.users.contains u then s else { s with users := u :: s.users }

/-- Modelled from the spec: deleting a User cascades to every Dashboard
it owns (owner FK, on_delete=CASCADE) and transitively to every Chart
and Report referencing those Dashboards (their dashboard FKs, likewise
CASCADE). -/
def deleteUser (s : Store) (u : Nat) : Except StoreError Store :=
  if s.users.contains u then
    let doomed := (s.dashboards.filter (fun p => p.2.owner == u)).map Prod.fst
    .ok { s with
            users := s.users.filter (fun v => v != u),
            dashboards := s.dashboards.filter (fun p => p.2.owner != u),
            charts := s.charts.filter
              (fun p => !(doomed.contains p.2.dashboard)),
            reports := s.reports.filter
              (fun p => !(doomed.contains p.2.dashboard)),
            clock := s.clock + 1 }
  else .error .NotFoundError

/-- One Record Store operation, for reasoning about arbitrary operation
sequences against the store. -/
inductive Op where
  | addUser (u : Nat)
  | deleteUser (u : Nat)
  | createDashboard (f : DashboardFields)
  | createChart (f : ChartFields)
  | createDataSource (f : DataSourceFields)
  | createReport (f : ReportFields)
  | updateDashboard (id : Nat) (p : DashboardPatch)
  | updateChart (id : Nat) (p : ChartPatch)
  | updateDataSource (id : Nat) (p : DataSourcePatch)
  | updateReport (id : Nat) (p : ReportPatch)
  | deleteDashboard (id : Nat)
  | deleteChart (id : Nat)
  | deleteDataSource (id : Nat)
  | deleteReport (id : Nat)
deriving DecidableEq

/-- A failed operation surfaces its error to the caller and leaves the
persisted record set unchanged (spec §7). -/
def stepOk (s : Store) : Except StoreError Store → Store
  | .ok t => t
  | .error _ => s

/-- Execute one operation against the store. -/
def step (s : Store) : Op → Store
  | .addUser u => addUser s u
  | .deleteUser u => stepOk s (deleteUser s u)
  | .createDashboard f => stepOk s ((createDashboard s f).map Prod.snd)
  | .createChart f => stepOk s ((createChart s f).map Prod.snd)
  | .createDataSource f => stepOk s ((createDataSource s f).map Prod.snd)
  | .createReport f => stepOk s ((createReport s f).map Prod.snd)
  | .updateDashboard id p => stepOk s (updateDashboard s id p)
  | .updateChart id p => stepOk s (updateChart s id p)
  | .updateDataSource id p => stepOk s (updateDataSource s id p)
  | .updateReport id p => stepOk s (updateReport s id p)
  | .deleteDashboard id => stepOk s (deleteDashboard s id)
  | .deleteChart id => stepOk s (deleteChart s id)
  | .deleteDataSource id => stepOk s (deleteDataSource s id)
  | .deleteReport id => stepOk s (deleteReport s id)

/-- Execute a sequence of operations starting from a given store. -/
def reachFrom (s : Store) (ops : List Op) : Store := ops.foldl step s

/-- A store is reachable when some operation sequence produces it from
the empty store. -/
def Reachable (s : Store) : Prop := ∃ ops, reachFrom initStore ops = s

/-- Timestamp discipline of one table: every record was created no later
than it was last updated, and both instants precede the clock. -/
def stampsWF (c u : α → Nat) (k : Nat) (l : List (Nat × α)) : Prop :=
  ∀ p ∈ l, c p.2 ≤ u p.2 ∧ u p.2 < k

/-- Identity discipline of one table: keys are pairwise distinct and
below the fresh-identity counter. -/
def keysWF (n : Nat) (l : List (Nat × α)) : Prop :=
  (l.map Prod.fst).Nodup ∧ ∀ p ∈ l, p.1 < n

/-- Store well-formedness: timestamp and identity discipline of all four
tables. -/
def WF (s : Store) : Prop :=
  stampsWF Dashboard.created_at Dashboard.updated_at s.clock s.dashboards ∧
  stampsWF Chart.created_at Chart.updated_at s.clock s.charts ∧
  stampsWF DataSource.created_at DataSource.updated_at s.clock
    s.dataSources ∧
  stampsWF Report.created_at Report.updated_at s.clock s.reports ∧
  keysWF s.nextId s.dashboards ∧ keysWF s.nextId s.charts ∧
  keysWF s.nextId s.dataSources ∧ keysWF s.nextId s.reports

instance (c u : α → Nat) (k : Nat) (l : List (Nat × α)) :
    Decidable (stampsWF c u k l) := List.decidableBAll _ l

instance (n : Nat) (l : List (Nat × α)) : Decidable (keysWF n l) :=
  instDecidableAnd

instance (s : Store) : Decidable (WF s) := instDecidableAnd

lemma stampsWF_mono {c u : α → Nat} {k k2 : Nat} {l : List (Nat × α)}
    (hk : k ≤ k2) (h : stampsWF c u k l) : stampsWF c u k2 l :=
  fun p hp => ⟨(h p hp).1, Nat.lt_of_lt_of_le (h p hp).2 hk⟩

lemma stampsWF_cons {c u : α → Nat} {k : Nat} {l : List (Nat × α)}
    {id : Nat} {r : α} (h1 : c r ≤ u r) (h2 : u r < k)
    (h : stampsWF c u k l) : stampsWF c u k ((id, r) :: l) := by
  intro p hp
  rcases List.mem_cons.1 hp with rfl | hm
  · exact ⟨h1, h2⟩
  · exact h p hm

lemma stampsWF_filter {c u : α → Nat} {k : Nat} {l : List (Nat × α)}
    (q : Nat × α → Bool) (h : stampsWF c u k l) :
    stampsWF c u k (l.filter q) :=
  fun p hp => h p (List.mem_of_mem_filter hp)

lemma stampsWF_patchTable {c u : α → Nat} {k : Nat} {l : List (Nat × α)}
    {id : Nat} {f : α → α} (hc : ∀ a, c (f a) = c a)
    (hu : ∀ a, u (f a) = k) (h : stampsWF c u k l) :
    stampsWF c u (k + 1) (patchTable l id f) := by
  intro p hp
  rcases List.mem_map.1 hp with ⟨q, hq, rfl⟩
  by_cases hid : (q.1 == id) = true
  · simp only [hid, if_pos]
    refine ⟨?_, ?_⟩
    · rw [hc, hu]
      exact Nat.le_of_lt_succ (Nat.lt_succ_of_lt
        (Nat.lt_of_le_of_lt (h q hq).1 (h q hq).2))
    · rw [hu]
      exact Nat.lt_succ_self k
  · simp only [hid, if_neg, Bool.false_eq_true, not_false_iff]
    exact ⟨(h q hq).1, Nat.lt_succ_of_lt (h q hq).2⟩

lemma keysWF_mono {n n2 : Nat} {l : List (Nat × α)} (hn : n ≤ n2)
    (h : keysWF n l) : keysWF n2 l :=
  ⟨h.1, fun p hp => Nat.lt_of_lt_of_le (h.2 p hp) hn⟩

lemma keysWF_filter {n : Nat} {l : List (Nat × α)} (q : Nat × α → Bool)
    (h : keysWF n l) : keysWF n (l.filter q) := by
  refine ⟨List.Nodup.sublist (List.Sublist.map Prod.fst
    (List.filter_sublist l)) h.1, ?_⟩
  exact fun p hp => h.2 p (List.mem_of_mem_filter hp)

lemma keysWF_create {n : Nat} {l : List (Nat × α)} (r : α)
    (h : keysWF n l) : keysWF (n + 1) ((n, r) :: l) := by
  obtain ⟨hnd, hlt⟩ := h
  refine ⟨?_, ?_⟩
  · simp only [List.map_cons]
    refine List.nodup_cons.2 ⟨?_, hnd⟩
    intro hmem
    rcases List.mem_map.1 hmem with ⟨p, hp, hfst⟩
    exact absurd (hfst ▸ hlt p hp) (lt_irrefl n)
  · intro p hp
    rcases List.mem_cons.1 hp with rfl | hm
    · exact Nat.lt_succ_self n
    · exact Nat.lt_succ_of_lt (hlt p hm)

lemma patchTable_map_fst (l : List (Nat × α)) (id : Nat) (f : α → α) :
    (patchTable l id f).map Prod.fst = l.map Prod.fst := by
  unfold patchTable
  rw [List.map_map]
  congr 1
  funext q
  by_cases hid : q.1 = id <;> simp [hid]

lemma keysWF_patchTable {n : Nat} {l : List (Nat × α)} {id : Nat}
    {f : α → α} (h : keysWF n l) : keysWF n (patchTable l id f) := by
  refine ⟨by rw [patchTable_map_fst]; exact h.1, ?_⟩
  intro p hp
  rcases List.mem_map.1 hp with ⟨q, hq, rfl⟩
  by_cases hid : (q.1 == id) = true <;> simp [hid] <;> exact h.2 q hq

lemma Except_map_snd_ok {ε α β : Type} {e : Except ε (α × β)} {t : β}
    (h : e.map Prod.snd = .ok t) : ∃ i, e = .ok (i, t) := by
  cases e with
  | ok p =>
    cases p with
    | mk a b =>
      injection h with h2
      have hb : b = t := h2
      exact ⟨a, by rw [hb]⟩
  | error _ => exact Except.noConfusion h

lemma WF_stepOk {s : Store} {e : Except StoreError Store} (hs : WF s)
    (h : ∀ t, e = .ok t → WF t) : WF (stepOk s e) := by
  cases e with
  | ok t => exact h t rfl
  | error _ => exact hs

lemma WF_addUser {s : Store} {u : Nat} (hs : WF s) : WF (addUser s u) := by
  unfold addUser
  split
  · exact hs
  · exact hs

lemma WF_createDashboard {s : Store} {f : DashboardFields} {i : Nat}
    {t : Store} (hs : WF s) (h : createDashboard s f = .ok (i, t)) :
    WF t := by
  unfold createDashboard at h
  split at h
  · injection h with h2
    injection h2 with hi ht
    subst ht
    obtain ⟨h1, h2', h3, h4, k1, k2, k3, k4⟩ := hs
    exact ⟨stampsWF_cons (le_refl _) (Nat.lt_succ_self _)
             (stampsWF_mono (Nat.le_succ _) h1),
           stampsWF_mono (Nat.le_succ _) h2',
           stampsWF_mono (Nat.le_succ _) h3,
           stampsWF_mono (Nat.le_succ _) h4,
           keysWF_create _ k1, keysWF_mono (Nat.le_succ _) k2,
           keysWF_mono (Nat.le_succ _) k3, keysWF_mono (Nat.le_succ _) k4⟩
  · exact Except.noConfusion h

lemma WF_createChart {s : Store} {f : ChartFields} {i : Nat} {t : Store}
    (hs : WF s) (h : createChart s f = .ok (i, t)) : WF t := by
  unfold createChart at h
  split at h
  · split at h
    · injection h with h2
      injection h2 with hi ht
      subst ht
      obtain ⟨h1, h2', h3, h4, k1, k2, k3, k4⟩ := hs
      exact ⟨stampsWF_mono (Nat.le_succ _) h1,
             stampsWF_cons (le_refl _) (Nat.lt_succ_self _)
               (stampsWF_mono (Nat.le_succ _) h2'),
             stampsWF_mono (Nat.le_succ _) h3,
             stampsWF_mono (Nat.le_succ _) h4,
             keysWF_mono (Nat.le_succ _) k1, keysWF_create _ k2,
             keysWF_mono (Nat.le_succ _) k3, keysWF_mono (Nat.le_succ _) k4⟩
    · exact Except.noConfusion h
  · exact Except.noConfusion h

lemma WF_createDataSource {s : Store} {f : DataSourceFields} {i : Nat}
    {t : Store} (hs : WF s) (h : createDataSource s f = .ok (i, t)) :
    WF t := by
  unfold createDataSource at h
  injection h with h2
  injection h2 with hi ht
  subst ht
  obtain ⟨h1, h2', h3, h4, k1, k2, k3, k4⟩ := hs
  exact ⟨stampsWF_mono (Nat.le_succ _) h1,
         stampsWF_mono (Nat.le_succ _) h2',
         stampsWF_cons (le_refl _) (Nat.lt_succ_self _)
           (stampsWF_mono (Nat.le_succ _) h3),
         stampsWF_mono (Nat.le_succ _) h4,
         keysWF_mono (Nat.le_succ _) k1, keysWF_mono (Nat.le_succ _) k2,
         keysWF_create _ k3, keysWF_mono (Nat.le_succ _) k4⟩

lemma WF_createReport {s : Store} {f : ReportFields} {i : Nat} {t : Store}
    (hs : WF s) (h : createReport s f = .ok (i, t)) : WF t := by
  unfold createReport at h
  split at h
  · split at h
    · injection h with h2
      injection h2 with hi ht
      subst ht
      obtain ⟨h1, h2', h3, h4, k1, k2, k3, k4⟩ := hs
      exact ⟨stampsWF_mono (Nat.le_succ _) h1,
             stampsWF_mono (Nat.le_succ _) h2',
             stampsWF_mono (Nat.le_succ _) h3,
             stampsWF_cons (le_refl _) (Nat.lt_succ_self _)
               (stampsWF_mono (Nat.le_succ _) h4),
             keysWF_mono (Nat.le_succ _) k1, keysWF_mono (Nat.le_succ _) k2,
             keysWF_mono (Nat.le_succ _) k3, keysWF_create _ k4⟩
    · exact Except.noConfusion h
  · exact Except.noConfusion h

lemma WF_updateDashboard {s : Store} {id : Nat} {p : DashboardPatch}
    {t : Store} (hs : WF s) (h : updateDashboard s id p = .ok t) :
    WF t := by
  unfold updateDashboard at h
  split at h
  · exact Except.noConfusion h
  · split at h
    · injection h with ht
      subst ht
      obtain ⟨h1, h2', h3, h4, k1, k2, k3, k4⟩ := hs
      exact ⟨stampsWF_patchTable (fun a => rfl) (fun a => rfl) h1,
             stampsWF_mono (Nat.le_succ _) h2',
             stampsWF_mono (Nat.le_succ _) h3,
             stampsWF_mono (Nat.le_succ _) h4,
             keysWF_patchTable k1, k2, k3, k4⟩
    · exact Except.noConfusion h

lemma WF_updateChart {s : Store} {id : Nat} {p : ChartPatch} {t : Store}
    (hs : WF s) (h : updateChart s id p = .ok t) : WF t := by
  unfold updateChart at h
  split at h
  · exact Except.noConfusion h
  · split at h
    · injection h with ht
      subst ht
      obtain ⟨h1, h2', h3, h4, k1, k2, k3, k4⟩ := hs
      exact ⟨stampsWF_mono (Nat.le_succ _) h1,
             stampsWF_patchTable (fun a => rfl) (fun a => rfl) h2',
             stampsWF_mono (Nat.le_succ _) h3,
             stampsWF_mono (Nat.le_succ _) h4,
             k1, keysWF_patchTable k2, k3, k4⟩
    · exact Except.noConfusion h

lemma WF_updateDataSource {s : Store} {id : Nat} {p : DataSourcePatch}
    {t : Store} (hs : WF s) (h : updateDataSource s id p = .ok t) :
    WF t := by
  unfold updateDataSource at h
  split at h
  · exact Except.noConfusion h
  · injection h with ht
    subst ht
    obtain ⟨h1, h2', h3, h4, k1, k2, k3, k4⟩ := hs
    exact ⟨stampsWF_mono (Nat.le_succ _) h1,
           stampsWF_mono (Nat.le_succ _) h2',
           stampsWF_patchTable (fun a => rfl) (fun a => rfl) h3,
           stampsWF_mono (Nat.le_succ _) h4,
           k1, k2, keysWF_patchTable k3, k4⟩

lemma WF_updateReport {s : Store} {id : Nat} {p : ReportPatch} {t : Store}
    (hs : WF s) (h : updateReport s id p = .ok t) : WF t := by
  unfold updateReport at h
  split at h
  · exact Except.noConfusion h
  · split at h
    · injection h with ht
      subst ht
      obtain ⟨h1, h2', h3, h4, k1, k2, k3, k4⟩ := hs
      exact ⟨stampsWF_mono (Nat.le_succ _) h1,
             stampsWF_mono (Nat.le_succ _) h2',
             stampsWF_mono (Nat.le_succ _) h3,
             stampsWF_patchTable (fun a => rfl) (fun a => rfl) h4,
             k1, k2, k3, keysWF_patchTable k4⟩
    · exact Except.noConfusion h

lemma WF_deleteDashboard {s : Store} {id : Nat} {t : Store} (hs : WF s)
    (h : deleteDashboard s id = .ok t) : WF t := by
  unfold deleteDashboard at h
  split at h
  · exact Except.noConfusion h
  · injection h with ht
    subst ht
    obtain ⟨h1, h2', h3, h4, k1, k2, k3, k4⟩ := hs
    exact ⟨stampsWF_filter _ (stampsWF_mono (Nat.le_succ _) h1),
           stampsWF_filter _ (stampsWF_mono (Nat.le_succ _) h2'),
           stampsWF_mono (Nat.le_succ _) h3,
           stampsWF_filter _ (stampsWF_mono (Nat.le_succ _) h4),
           keysWF_filter _ k1, keysWF_filter _ k2, k3, keysWF_filter _ k4⟩

lemma WF_deleteChart {s : Store} {id : Nat} {t : Store} (hs : WF s)
    (h : deleteChart s id = .ok t) : WF t := by
  unfold deleteChart at h
  split at h
  · exact Except.noConfusion h
  · injection h with ht
    subst ht
    obtain ⟨h1, h2', h3, h4, k1, k2, k3, k4⟩ := hs
    exact ⟨stampsWF_mono (Nat.le_succ _) h1,
           stampsWF_filter _ (stampsWF_mono (Nat.le_succ _) h2'),
           stampsWF_mono (Nat.le_succ _) h3,
           stampsWF_mono (Nat.le_succ _) h4,
           k1, keysWF_filter _ k2, k3, k4⟩

lemma WF_deleteDataSource {s : Store} {id : Nat} {t : Store} (hs : WF s)
    (h : deleteDataSource s id = .ok t) : WF t := by
  unfold deleteDataSource at h
  split at h
  · exact Except.noConfusion h
  · injection h with ht
    subst ht
    obtain ⟨h1, h2', h3, h4, k1, k2, k3, k4⟩ := hs
    exact ⟨stampsWF_mono (Nat.le_succ _) h1,
           stampsWF_mono (Nat.le_succ _) h2',
           stampsWF_filter _ (stampsWF_mono (Nat.le_succ _) h3),
           stampsWF_mono (Nat.le_succ _) h4,
           k1, k2, keysWF_filter _ k3, k4⟩

lemma WF_deleteReport {s : Store} {id : Nat} {t : Store} (hs : WF s)
    (h : deleteReport s id = .ok t) : WF t := by
  unfold deleteReport at h
  split at h
  · exact Except.noConfusion h
  · injection h with ht
    subst ht
    obtain ⟨h1, h2', h3, h4, k1, k2, k3, k4⟩ := hs
    exact ⟨stampsWF_mono (Nat.le_succ _) h1,
           stampsWF_mono (Nat.le_succ _) h2',
           stampsWF_mono (Nat.le_succ _) h3,
           stampsWF_filter _ (stampsWF_mono (Nat.le_succ _) h4),
           k1, k2, k3, keysWF_filter _ k4⟩

lemma WF_deleteUser {s : Store} {u : Nat} {t : Store} (hs : WF s)
    (h : deleteUser s u = .ok t) : WF t := by
  unfold deleteUser at h
  split at h
  · injection h with ht
    subst ht
    obtain ⟨h1, h2', h3, h4, k1, k2, k3, k4⟩ := hs
    exact ⟨stampsWF_filter _ (stampsWF_mono (Nat.le_succ _) h1),
           stampsWF_filter _ (stampsWF_mono (Nat.le_succ _) h2'),
           stampsWF_mono (Nat.le_succ _) h3,
           stampsWF_filter _ (stampsWF_mono (Nat.le_succ _) h4),
           keysWF_filter _ k1, keysWF_filter _ k2, k3, keysWF_filter _ k4⟩
  · exact Except.noConfusion h

lemma WF_step (s : Store) (op : Op) (hs : WF s) : WF (step s op) := by
  cases op with
  | addUser u => exact WF_addUser hs
  | deleteUser u => exact WF_stepOk hs (fun t ht => WF_deleteUser hs ht)
  | createDashboard f =>
    refine WF_stepOk hs (fun t ht => ?_)
    obtain ⟨i, hi⟩ := Except_map_snd_ok ht
    exact WF_createDashboard hs hi
  | createChart f =>
    refine WF_stepOk hs (fun t ht => ?_)
    obtain ⟨i, hi⟩ := Except_map_snd_ok ht
    exact WF_createChart hs hi
  | createDataSource f =>
    refine WF_stepOk hs (fun t ht => ?_)
    obtain ⟨i, hi⟩ := Except_map_snd_ok ht
    exact WF_createDataSource hs hi
  | createReport f =>
    refine WF_stepOk hs (fun t ht => ?_)
    obtain ⟨i, hi⟩ := Except_map_snd_ok ht
    exact WF_createReport hs hi
  | updateDashboard id p =>
    exact WF_stepOk hs (fun t ht => WF_updateDashboard hs ht)
  | updateChart id p => exact WF_stepOk hs (fun t ht => WF_updateChart hs ht)
  | updateDataSource id p =>
    exact WF_stepOk hs (fun t ht => WF_updateDataSource hs ht)
  | updateReport id p =>
    exact WF_stepOk hs (fun t ht => WF_updateReport hs ht)
  | deleteDashboard id =>
    exact WF_stepOk hs (fun t ht => WF_deleteDashboard hs ht)
  | deleteChart id => exact WF_stepOk hs (fun t ht => WF_deleteChart hs ht)
  | deleteDataSource id =>
    exact WF_stepOk hs (fun t ht => WF_deleteDataSource hs ht)
  | deleteReport id => exact WF_stepOk hs (fun t ht => WF_deleteReport hs ht)

lemma WF_reachFrom (s : Store) (ops : List Op) (hs : WF s) :
    WF (reachFrom s ops) := by
  induction ops generalizing s with
  | nil => exact hs
  | cons op rest ih => exact ih (step s op) (WF_step s op hs)

lemma WF_initStore : WF initStore := by decide

lemma WF_reachable {s : Store} (h : Reachable s) : WF s := by
  obtain ⟨ops, hops⟩ := h
  rw [← hops]
  exact WF_reachFrom initStore ops WF_initStore

lemma mem_of_lookupRec {l : List (Nat × α)} {id : Nat} {r : α}
    (h : lookupRec l id = some r) : (id, r) ∈ l := by
  unfold lookupRec at h
  cases hf : l.find? (fun p => p.1 == id) with
  | none => rw [hf] at h; exact Option.noConfusion h
  | some q =>
    rw [hf] at h
    injection h with h2
    have hq := List.find?_some hf
    have hmem : q ∈ l := List.mem_of_find?_eq_some hf
    cases q with
    | mk q1 q2 =>
      have h1 : q1 = id := by simpa using hq
      have hr : q2 = r := h2
      rw [← h1, ← hr]
      exact hmem

lemma lookupRec_cons_self (l : List (Nat × α)) (id : Nat) (r : α) :
    lookupRec ((id, r) :: l) id = some r := by
  simp [lookupRec, List.find?_cons]

lemma lookupRec_filter_keyNe (l : List (Nat × α)) (id : Nat) :
    lookupRec (l.filter (fun p => p.1 != id)) id = none := by
  have hnone : (l.filter (fun p => p.1 != id)).find?
      (fun p => p.1 == id) = none := by
    rw [List.find?_eq_none]
    intro x hx hbeq
    rcases List.mem_filter.1 hx with ⟨_, hne⟩
    have h1 : x.1 = id := by simpa using hbeq
    simp [h1] at hne
  unfold lookupRec
  rw [hnone]
  rfl

lemma lookupRec_filter_removed {l : List (Nat × α)}
    (hnd : (l.map Prod.fst).Nodup) {id : Nat} {c : α} (hm : (id, c) ∈ l)
    {q : Nat × α → Bool} (hq : q (id, c) = false) :
    lookupRec (l.filter q) id = none := by
  have hnone : (l.filter q).find? (fun p => p.1 == id) = none := by
    rw [List.find?_eq_none]
    intro x hx hbeq
    rcases List.mem_filter.1 hx with ⟨hxl, hxq⟩
    have hx1 : x.1 = id := by simpa using hbeq
    have hxeq : x = (id, c) :=
      List.inj_on_of_nodup_map hnd hxl hm hx1
    rw [hxeq, hq] at hxq
    exact Bool.noConfusion hxq
  unfold lookupRec
  rw [hnone]
  rfl

lemma lookupRec_patchTable (l : List (Nat × α)) (id : Nat) (f : α → α) :
    lookupRec (patchTable l id f) id = (lookupRec l id).map f := by
  unfold patchTable lookupRec
  induction l with
  | nil => rfl
  | cons q t ih =>
    by_cases hid : q.1 = id
    · simp [List.find?_cons, hid]
    · simp only [List.map_cons, List.find?_cons]
      have hb : (q.1 == id) = false := by simp [hid]
      simp only [hb, if_neg, Bool.false_eq_true, not_false_iff]
      simpa [hb] using ih

/-- The default retrieval order of Dashboard declared by the source
(`Meta.ordering = ['-created_at']`): a record comes no later than
another when its created_at is no smaller. -/
def dashboardOrder (a b : Dashboard) : Prop :=
  b.created_at ≤ a.created_at

instance : DecidableRel dashboardOrder := fun a b =>
  Nat.decLe b.created_at a.created_at

instance : IsTotal Dashboard dashboardOrder :=
  ⟨fun a b => Nat.le_total b.created_at a.created_at⟩

instance : IsTrans Dashboard dashboardOrder :=
  ⟨fun _ _ _ hab hbc => Nat.le_trans hbc hab⟩

/-- Modelled from the spec: `list` for Dashboard (§4.1) in the default
order the source declares (descending by created_at). -/
def listDashboards (s : Store) : List Dashboard :=
  List.insertionSort dashboardOrder (s.dashboards.map Prod.snd)

/-- Demo Dashboard record used by concrete witnesses. -/
def demoDash : Dashboard :=
  { title := "Sales", description := "Q1", owner := 1, is_public := false,
    created_at := 1, updated_at := 1 }

/-- Demo Chart record referencing dashboard 10. -/
def demoChart : Chart :=
  { title := "Revenue", chart_type := "bar", dashboard := 10,
    data_source := "source-cfg", config := "cfg", position_x := 0,
    position_y := 0, width := 400, height := 300,
    created_at := 1, updated_at := 1 }

/-- Demo DataSource record. -/
def demoDS : DataSource :=
  { name := "metrics", source_type := "database",
    connection_config := "conn", query := "SELECT 1",
    refresh_interval := 3600, last_refresh := none, is_active := true,
    created_at := 1, updated_at := 1 }

/-- Demo Report record referencing dashboard 10. -/
def demoReport : Report :=
  { title := "Weekly", dashboard := 10, schedule := "0 9 * * MON",
    recipients := "a@x.com", format := "pdf", is_active := true,
    last_run := none, next_run := none, created_at := 1, updated_at := 1 }

/-- Demo store: one user, one dashboard with one chart and one report,
one data source. -/
def demoStore : Store :=
  { users := [1], dashboards := [(10, demoDash)],
    charts := [(11, demoChart)], dataSources := [(12, demoDS)],
    reports := [(13, demoReport)], nextId := 14, clock := 2 }

/-- C5: `list` on Dashboard returns exactly the stored Dashboard records
(a permutation of the table), sorted by created_at in descending order. -/
theorem C5_list_dashboards_sorted (s : Store) :
    List.Pairwise (fun a b => b.created_at ≤ a.created_at)
      (listDashboards s) ∧
    (listDashboards s).Perm (s.dashboards.map Prod.snd) := by
  constructor
  · exact List.sorted_insertionSort dashboardOrder
      (s.dashboards.map Prod.snd)
  · exact List.perm_insertionSort dashboardOrder
      (s.dashboards.map Prod.snd)

/-- C9: deleting a Dashboard or a User never removes or modifies any
DataSource record: the dataSources table is unchanged. -/
theorem C9_dataSources_frame (s : Store) (d u : Nat) :
    (∀ t, deleteDashboard s d = .ok t → t.dataSources = s.dataSources) ∧
    (∀ t, deleteUser s u = .ok t → t.dataSources = s.dataSources) := by
  constructor
  · intro t ht
    unfold deleteDashboard at ht
    split at ht
    · exact Except.noConfusion ht
    · injection ht with ht2
      subst ht2
      rfl
  · intro t ht
    unfold deleteUser at ht
    split at ht
    · injection ht with ht2
      subst ht2
      rfl
    · exact Except.noConfusion ht

/-- Store reached by deleting dashboard 10 from the demo store. -/
def demoStoreDashDel : Store :=
  (deleteDashboard demoStore 10).toOption.getD demoStore

theorem C9_witness :
    demoStoreDashDel.dataSources = demoStore.dataSources :=
  (C9_dataSources_frame demoStore 10 1).1 demoStoreDashDel rfl

/-- C10: in every store reachable by a sequence of Record Store
operations, every record of every entity type satisfies
created_at ≤ updated_at. -/
theorem C10_timestamps_invariant (s : Store) (h : Reachable s) :
    (∀ p ∈ s.dashboards, p.2.created_at ≤ p.2.updated_at) ∧
    (∀ p ∈ s.charts, p.2.created_at ≤ p.2.updated_at) ∧
    (∀ p ∈ s.dataSources, p.2.created_at ≤ p.2.updated_at) ∧
    (∀ p ∈ s.reports, p.2.created_at ≤ p.2.updated_at) := by
  obtain ⟨h1, h2, h3, h4, _, _, _, _⟩ := WF_reachable h
  exact ⟨fun p hp => (h1 p hp).1, fun p hp => (h2 p hp).1,
         fun p hp => (h3 p hp).1, fun p hp => (h4 p hp).1⟩

/-- Demo Dashboard creation field set. -/
def demoDashFields : DashboardFields :=
  { title := "Sales", description := "Q1", owner := 1 }

/-- Demo operation sequence reaching a store with one dashboard. -/
def demoOps : List Op :=
  [Op.addUser 1, Op.createDashboard demoDashFields]

theorem C10_witness :
    (∀ p ∈ (reachFrom initStore demoOps).dashboards,
      p.2.created_at ≤ p.2.updated_at) ∧
    (∀ p ∈ (reachFrom initStore demoOps).charts,
      p.2.created_at ≤ p.2.updated_at) ∧
    (∀ p ∈ (reachFrom initStore demoOps).dataSources,
      p.2.created_at ≤ p.2.updated_at) ∧
    (∀ p ∈ (reachFrom initStore demoOps).reports,
      p.2.created_at ≤ p.2.updated_at) :=
  C10_timestamps_invariant (reachFrom initStore demoOps) ⟨demoOps, rfl⟩

/-- C1: for every Dashboard in a well-formed store, delete succeeds,
removes it together with every Chart and Report whose dashboard
reference equals it, and a subsequent get on the Dashboard or on any of
those Charts or Reports fails with NotFoundError. -/
theorem C1_deleteDashboard_cascades (s : Store) (d : Nat) (rd : Dashboard)
    (hWF : WF s) (hd : lookupRec s.dashboards d = some rd) :
    ∃ t, deleteDashboard s d = .ok t ∧
      getDashboard t d = .error .NotFoundError ∧
      (∀ cid c, (cid, c) ∈ s.charts → c.dashboard = d →
        getChart t cid = .error .NotFoundError) ∧
      (∀ rid r, (rid, r) ∈ s.reports → r.dashboard = d →
        getReport t rid = .error .NotFoundError) := by
  obtain ⟨_, _, _, _, _, kC, _, kR⟩ := hWF
  have hdel : deleteDashboard s d =
      .ok { s with
              dashboards := s.dashboards.filter (fun p => p.1 != d),
              charts := s.charts.filter (fun p => p.2.dashboard != d),
              reports := s.reports.filter (fun p => p.2.dashboard != d),
              clock := s.clock + 1 } := by
    unfold deleteDashboard
    rw [hd]
  refine ⟨_, hdel, ?_, ?_, ?_⟩
  · unfold getDashboard
    rw [show ({ s with
          dashboards := s.dashboards.filter (fun p => p.1 != d),
          charts := s.charts.filter (fun p => p.2.dashboard != d),
          reports := s.reports.filter (fun p => p.2.dashboard != d),
          clock := s.clock + 1 } : Store).dashboards =
        s.dashboards.filter (fun p => p.1 != d) from rfl]
    rw [lookupRec_filter_keyNe]
  · intro cid c hc hcd
    unfold getChart
    rw [show ({ s with
          dashboards := s.dashboards.filter (fun p => p.1 != d),
          charts := s.charts.filter (fun p => p.2.dashboard != d),
          reports := s.reports.filter (fun p => p.2.dashboard != d),
          clock := s.clock + 1 } : Store).charts =
        s.charts.filter (fun p => p.2.dashboard != d) from rfl]
    rw [lookupRec_filter_removed kC.1 hc (by simp [hcd])]
  · intro rid r hr hrd
    unfold getReport
    rw [show ({ s with
          dashboards := s.dashboards.filter (fun p => p.1 != d),
          charts := s.charts.filter (fun p => p.2.dashboard != d),
          reports := s.reports.filter (fun p => p.2.dashboard != d),
          clock := s.clock + 1 } : Store).reports =
        s.reports.filter (fun p => p.2.dashboard != d) from rfl]
    rw [lookupRec_filter_removed kR.1 hr (by simp [hrd])]

theorem C1_witness :
    ∃ t, deleteDashboard demoStore 10 = .ok t ∧
      getDashboard t 10 = .error .NotFoundError ∧
      (∀ cid c, (cid, c) ∈ demoStore.charts → c.dashboard = 10 →
        getChart t cid = .error .NotFoundError) ∧
      (∀ rid r, (rid, r) ∈ demoStore.reports → r.dashboard = 10 →
        getReport t rid = .error .NotFoundError) :=
  C1_deleteDashboard_cascades demoStore 10 demoDash (by decide) (by decide)

/-- C7: in a well-formed store, deleting a User deletes every Dashboard
it owns and transitively every Chart and Report referencing those
Dashboards: a subsequent get on any of them fails with NotFoundError. -/
theorem C7_deleteUser_cascades (s : Store) (u : Nat) (t : Store)
    (hWF : WF s) (hdel : deleteUser s u = .ok t) :
    (∀ did rd, (did, rd) ∈ s.dashboards → rd.owner = u →
      getDashboard t did = .error .NotFoundError) ∧
    (∀ cid c did rd, (cid, c) ∈ s.charts → (did, rd) ∈ s.dashboards →
      rd.owner = u → c.dashboard = did →
      getChart t cid = .error .NotFoundError) ∧
    (∀ rid rp did rd, (rid, rp) ∈ s.reports → (did, rd) ∈ s.dashboards →
      rd.owner = u → rp.dashboard = did →
      getReport t rid = .error .NotFoundError) := by
  obtain ⟨_, _, _, _, kD, kC, _, kR⟩ := hWF
  unfold deleteUser at hdel
  split at hdel
  · injection hdel with ht
    subst ht
    refine ⟨?_, ?_, ?_⟩
    · intro did rd hmem hown
      unfold getDashboard
      rw [show ({ s with
            users := s.users.filter (fun v => v != u),
            dashboards := s.dashboards.filter (fun p => p.2.owner != u),
            charts := s.charts.filter (fun p =>
              !(((s.dashboards.filter (fun q => q.2.owner == u)).map
                Prod.fst).contains p.2.dashboard)),
            reports := s.reports.filter (fun p =>
              !(((s.dashboards.filter (fun q => q.2.owner == u)).map
                Prod.fst).contains p.2.dashboard)),
            clock := s.clock + 1 } : Store).dashboards =
          s.dashboards.filter (fun p => p.2.owner != u) from rfl]
      rw [lookupRec_filter_removed kD.1 hmem (by simp [hown])]
    · intro cid c did rd hc hmem hown hcd
      unfold getChart
      rw [show ({ s with
            users := s.users.filter (fun v => v != u),
            dashboards := s.dashboards.filter (fun p => p.2.owner != u),
            charts := s.charts.filter (fun p =>
              !(((s.dashboards.filter (fun q => q.2.owner == u)).map
                Prod.fst).contains p.2.dashboard)),
            reports := s.reports.filter (fun p =>
              !(((s.dashboards.filter (fun q => q.2.owner == u)).map
                Prod.fst).contains p.2.dashboard)),
            clock := s.clock + 1 } : Store).charts =
          s.charts.filter (fun p =>
            !(((s.dashboards.filter (fun q => q.2.owner == u)).map
              Prod.fst).contains p.2.dashboard)) from rfl]
      rw [lookupRec_filter_removed kC.1 hc
        (by simp; exact ⟨rd, by rw [hcd]; exact hmem, hown⟩)]
    · intro rid rp did rd hr hmem hown hrd
      unfold getReport
      rw [show ({ s with
            users := s.users.filter (fun v => v != u),
            dashboards := s.dashboards.filter (fun p => p.2.owner != u),
            charts := s.charts.filter (fun p =>
              !(((s.dashboards.filter (fun q => q.2.owner == u)).map
                Prod.fst).contains p.2.dashboard)),
            reports := s.reports.filter (fun p =>
              !(((s.dashboards.filter (fun q => q.2.owner == u)).map
                Prod.fst).contains p.2.dashboard)),
            clock := s.clock + 1 } : Store).reports =
          s.reports.filter (fun p =>
            !(((s.dashboards.filter (fun q => q.2.owner == u)).map
              Prod.fst).contains p.2.dashboard)) from rfl]
      rw [lookupRec_filter_removed kR.1 hr
        (by simp; exact ⟨rd, by rw [hrd]; exact hmem, hown⟩)]
  · exact Except.noConfusion hdel

/-- Store reached by deleting user 1 from the demo store. -/
def demoStoreUserDel : Store :=
  (deleteUser demoStore 1).toOption.getD demoStore

theorem C7_witness :
    (∀ did rd, (did, rd) ∈ demoStore.dashboards → rd.owner = 1 →
      getDashboard demoStoreUserDel did = .error .NotFoundError) ∧
    (∀ cid c did rd, (cid, c) ∈ demoStore.charts →
      (did, rd) ∈ demoStore.dashboards → rd.owner = 1 →
      c.dashboard = did → getChart demoStoreUserDel cid =
        .error .NotFoundError) ∧
    (∀ rid rp did rd, (rid, rp) ∈ demoStore.reports →
      (did, rd) ∈ demoStore.dashboards → rd.owner = 1 →
      rp.dashboard = did → getReport demoStoreUserDel rid =
        .error .NotFoundError) :=
  C7_deleteUser_cascades demoStore 1 demoStoreUserDel (by decide) rfl

lemma getDashboard_of_lookup {s : Store} {id : Nat} {r : Dashboard}
    (h : lookupRec s.dashboards id = some r) :
    getDashboard s id = .ok r := by
  unfold getDashboard
  rw [h]

lemma getChart_of_lookup {s : Store} {id : Nat} {r : Chart}
    (h : lookupRec s.charts id = some r) : getChart s id = .ok r := by
  unfold getChart
  rw [h]

lemma getDataSource_of_lookup {s : Store} {id : Nat} {r : DataSource}
    (h : lookupRec s.dataSources id = some r) :
    getDataSource s id = .ok r := by
  unfold getDataSource
  rw [h]

lemma getReport_of_lookup {s : Store} {id : Nat} {r : Report}
    (h : lookupRec s.reports id = some r) : getReport s id = .ok r := by
  unfold getReport
  rw [h]

/-- C2: create of a Chart whose chart_type is outside the enumerated set
fails with ValidationError, and create of a Report whose format is given
and outside the enumerated set fails with ValidationError. -/
theorem C2_create_enum_validation (s : Store) (f : ChartFields)
    (g : ReportFields) (fmt : String) (hf : f.chart_type ∉ CHART_TYPES)
    (hg : g.format = some fmt) (hfmt : fmt ∉ REPORT_FORMATS) :
    createChart s f = .error .ValidationError ∧
    createReport s g = .error .ValidationError := by
  constructor
  · unfold createChart
    rw [if_neg (by simpa using hf)]
  · unfold createReport
    rw [if_neg (by simp [hg]; simpa using hfmt)]

/-- Chart field set with an unrecognized chart_type. -/
def demoBadChartFields : ChartFields :=
  { title := "Bad", chart_type := "donut", dashboard := 10,
    data_source := "d", config := "c" }

/-- Report field set with an unrecognized format. -/
def demoBadReportFields : ReportFields :=
  { title := "Bad", dashboard := 10, schedule := "sch",
    recipients := "r", format := some "xml" }

theorem C2_witness :
    createChart demoStore demoBadChartFields = .error .ValidationError ∧
    createReport demoStore demoBadReportFields =
      .error .ValidationError :=
  C2_create_enum_validation demoStore demoBadChartFields
    demoBadReportFields "xml" (by decide) rfl (by decide)

/-- C3: for every entity type, a successful create followed by get of
the returned identity yields a record whose fields equal the given field
set (with declared defaults filled for omitted fields) plus the
store-assigned created_at and updated_at timestamps. -/
theorem C3_create_get_roundtrip (s : Store) :
    (∀ f i t, createDashboard s f = .ok (i, t) →
      ∃ r, getDashboard t i = .ok r ∧ r.title = f.title ∧
        r.description = f.description ∧ r.owner = f.owner ∧
        r.is_public = f.is_public.getD false ∧
        r.created_at = s.clock ∧ r.updated_at = s.clock) ∧
    (∀ f i t, createChart s f = .ok (i, t) →
      ∃ r, getChart t i = .ok r ∧ r.title = f.title ∧
        r.chart_type = f.chart_type ∧ r.dashboard = f.dashboard ∧
        r.data_source = f.data_source ∧ r.config = f.config ∧
        r.position_x = f.position_x.getD 0 ∧
        r.position_y = f.position_y.getD 0 ∧ r.width = f.width.getD 400 ∧
        r.height = f.height.getD 300 ∧
        r.created_at = s.clock ∧ r.updated_at = s.clock) ∧
    (∀ f i t, createDataSource s f = .ok (i, t) →
      ∃ r, getDataSource t i = .ok r ∧ r.name = f.name ∧
        r.source_type = f.source_type ∧
        r.connection_config = f.connection_config ∧ r.query = f.query ∧
        r.refresh_interval = f.refresh_interval.getD 3600 ∧
        r.last_refresh = f.last_refresh ∧
        r.is_active = f.is_active.getD true ∧
        r.created_at = s.clock ∧ r.updated_at = s.clock) ∧
    (∀ f i t, createReport s f = .ok (i, t) →
      ∃ r, getReport t i = .ok r ∧ r.title = f.title ∧
        r.dashboard = f.dashboard ∧ r.schedule = f.schedule ∧
        r.recipients = f.recipients ∧ r.format = f.format.getD "pdf" ∧
        r.is_active = f.is_active.getD true ∧ r.last_run = f.last_run ∧
        r.next_run = f.next_run ∧
        r.created_at = s.clock ∧ r.updated_at = s.clock) := by
  refine ⟨?_, ?_, ?_, ?_⟩
  · intro f i t hc
    unfold createDashboard at hc
    split at hc
    · injection hc with h2
      injection h2 with hi ht
      subst hi
      subst ht
      exact ⟨_, getDashboard_of_lookup (lookupRec_cons_self _ _ _),
             rfl, rfl, rfl, rfl, rfl, rfl⟩
    · exact Except.noConfusion hc
  · intro f i t hc
    unfold createChart at hc
    split at hc
    · split at hc
      · injection hc with h2
        injection h2 with hi ht
        subst hi
        subst ht
        exact ⟨_, getChart_of_lookup (lookupRec_cons_self _ _ _),
               rfl, rfl, rfl, rfl, rfl, rfl, rfl, rfl, rfl, rfl, rfl⟩
      · exact Except.noConfusion hc
    · exact Except.noConfusion hc
  · intro f i t hc
    unfold createDataSource at hc
    injection hc with h2
    injection h2 with hi ht
    subst hi
    subst ht
    exact ⟨_, getDataSource_of_lookup (lookupRec_cons_self _ _ _),
           rfl, rfl, rfl, rfl, rfl, rfl, rfl, rfl, rfl⟩
  · intro f i t hc
    unfold createReport at hc
    split at hc
    · split at hc
      · injection hc with h2
        injection h2 with hi ht
        subst hi
        subst ht
        exact ⟨_, getReport_of_lookup (lookupRec_cons_self _ _ _),
               rfl, rfl, rfl, rfl, rfl, rfl, rfl, rfl, rfl, rfl⟩
      · exact Except.noConfusion hc
    · exact Except.noConfusion hc

/-- Store reached by creating a dashboard from the demo field set. -/
def demoStoreCr : Store :=
  ((createDashboard demoStore demoDashFields).map Prod.snd).toOption.getD
    demoStore

theorem C3_witness :
    ∃ r, getDashboard demoStoreCr 14 = .ok r ∧
      r.title = demoDashFields.title ∧
      r.description = demoDashFields.description ∧
      r.owner = demoDashFields.owner ∧
      r.is_public = demoDashFields.is_public.getD false ∧
      r.created_at = demoStore.clock ∧ r.updated_at = demoStore.clock :=
  (C3_create_get_roundtrip demoStore).1 demoDashFields 14 demoStoreCr rfl

/-- C4: in a well-formed store, a successful update of an existing
record of any entity type stores a record whose updated_at is strictly
greater than the previous updated_at and whose created_at is unchanged. -/
theorem C4_update_refreshes_updated_at (s : Store) (hWF : WF s) :
    (∀ id p r t, lookupRec s.dashboards id = some r →
      updateDashboard s id p = .ok t →
      ∃ r2, lookupRec t.dashboards id = some r2 ∧
        r2.created_at = r.created_at ∧ r.updated_at < r2.updated_at) ∧
    (∀ id p r t, lookupRec s.charts id = some r →
      updateChart s id p = .ok t →
      ∃ r2, lookupRec t.charts id = some r2 ∧
        r2.created_at = r.created_at ∧ r.updated_at < r2.updated_at) ∧
    (∀ id p r t, lookupRec s.dataSources id = some r →
      updateDataSource s id p = .ok t →
      ∃ r2, lookupRec t.dataSources id = some r2 ∧
        r2.created_at = r.created_at ∧ r.updated_at < r2.updated_at) ∧
    (∀ id p r t, lookupRec s.reports id = some r →
      updateReport s id p = .ok t →
      ∃ r2, lookupRec t.reports id = some r2 ∧
        r2.created_at = r.created_at ∧ r.updated_at < r2.updated_at) := by
  obtain ⟨w1, w2, w3, w4, _, _, _, _⟩ := hWF
  refine ⟨?_, ?_, ?_, ?_⟩
  · intro id p r t hr hup
    unfold updateDashboard at hup
    split at hup
    · exact Except.noConfusion hup
    · split at hup
      · injection hup with ht
        subst ht
        refine ⟨applyDashboardPatch p s.clock r, ?_, rfl, ?_⟩
        · show lookupRec (patchTable s.dashboards id
            (applyDashboardPatch p s.clock)) id = _
          rw [lookupRec_patchTable, hr]
          rfl
        · exact (w1 (id, r) (mem_of_lookupRec hr)).2
      · exact Except.noConfusion hup
  · intro id p r t hr hup
    unfold updateChart at hup
    split at hup
    · exact Except.noConfusion hup
    · split at hup
      · injection hup with ht
        subst ht
        refine ⟨applyChartPatch p s.clock r, ?_, rfl, ?_⟩
        · show lookupRec (patchTable s.charts id
            (applyChartPatch p s.clock)) id = _
          rw [lookupRec_patchTable, hr]
          rfl
        · exact (w2 (id, r) (mem_of_lookupRec hr)).2
      · exact Except.noConfusion hup
  · intro id p r t hr hup
    unfold updateDataSource at hup
    split at hup
    · exact Except.noConfusion hup
    · injection hup with ht
      subst ht
      refine ⟨applyDataSourcePatch p s.clock r, ?_, rfl, ?_⟩
      · show lookupRec (patchTable s.dataSources id
          (applyDataSourcePatch p s.clock)) id = _
        rw [lookupRec_patchTable, hr]
        rfl
      · exact (w3 (id, r) (mem_of_lookupRec hr)).2
  · intro id p r t hr hup
    unfold updateReport at hup
    split at hup
    · exact Except.noConfusion hup
    · split at hup
      · injection hup with ht
        subst ht
        refine ⟨applyReportPatch p s.clock r, ?_, rfl, ?_⟩
        · show lookupRec (patchTable s.reports id
            (applyReportPatch p s.clock)) id = _
          rw [lookupRec_patchTable, hr]
          rfl
        · exact (w4 (id, r) (mem_of_lookupRec hr)).2
      · exact Except.noConfusion hup

/-- Patch used by the C4 witness. -/
def demoPatch : DashboardPatch := { title := some "Sales v2" }

/-- Store reached by updating dashboard 10 of the demo store. -/
def demoStoreUpd : Store :=
  (updateDashboard demoStore 10 demoPatch).toOption.getD demoStore

theorem C4_witness :
    ∃ r2, lookupRec demoStoreUpd.dashboards 10 = some r2 ∧
      r2.created_at = demoDash.created_at ∧
      demoDash.updated_at < r2.updated_at :=
  (C4_update_refreshes_updated_at demoStore (by decide)).1 10 demoPatch
    demoDash demoStoreUpd (by decide) rfl

/-- DataSource field set with a negative refresh_interval. -/
def dsFieldsNeg : DataSourceFields :=
  { name := "metrics", source_type := "database",
    connection_config := "conn", query := "SELECT 1",
    refresh_interval := some (-5) }

/-- C6 counterexample: creating a DataSource with refresh_interval -5
does not fail with ValidationError — it succeeds and persists -5, so a
non-positive refresh_interval is accepted by the store. -/
theorem C6_counterexample :
    createDataSource initStore dsFieldsNeg ≠
      Except.error StoreError.ValidationError ∧
    ((createDataSource initStore dsFieldsNeg).map
      (fun q => (getDataSource q.2 q.1).map DataSource.refresh_interval)) =
      Except.ok (Except.ok (-5)) := by
  constructor
  · intro h
    exact Except.noConfusion h
  · rfl

/-- C6 amended: the source declares no domain constraint on
refresh_interval (IntegerField with default 3600 and no validator), so
create of a DataSource never fails with ValidationError — it persists
the given refresh_interval, non-positive values included — and update of
a DataSource never fails with ValidationError either. -/
theorem C6_amended_no_refresh_validation (s : Store)
    (f : DataSourceFields) (id : Nat) (p : DataSourcePatch) :
    (∃ t r, createDataSource s f = .ok (s.nextId, t) ∧
      getDataSource t s.nextId = .ok r ∧
      r.refresh_interval = f.refresh_interval.getD 3600) ∧
    updateDataSource s id p ≠ .error .ValidationError := by
  constructor
  · exact ⟨_, _, rfl,
      getDataSource_of_lookup (lookupRec_cons_self _ _ _), rfl⟩
  · intro h
    unfold updateDataSource at h
    split at h
    · injection h with h2
      exact StoreError.noConfusion h2
    · exact Except.noConfusion h

theorem C6_amended_witness :
    (∃ t r, createDataSource demoStore dsFieldsNeg =
        .ok (demoStore.nextId, t) ∧
      getDataSource t demoStore.nextId = .ok r ∧
      r.refresh_interval = dsFieldsNeg.refresh_interval.getD 3600) ∧
    updateDataSource demoStore 12 {} ≠ .error .ValidationError :=
  C6_amended_no_refresh_validation demoStore dsFieldsNeg 12 {}

/-- C8: creating a Report with title, dashboard, schedule and recipients
given and format, is_active, last_run, next_run omitted succeeds and
yields a record with format "pdf", is_active true, last_run null and
next_run null. -/
theorem C8_report_defaults (s : Store) (f : ReportFields)
    (hfmt : f.format = none) (hact : f.is_active = none)
    (hlast : f.last_run = none) (hnext : f.next_run = none)
    (hdash : (lookupRec s.dashboards f.dashboard).isSome = true) :
    ∃ t r, createReport s f = .ok (s.nextId, t) ∧
      getReport t s.nextId = .ok r ∧ r.title = f.title ∧
      r.dashboard = f.dashboard ∧ r.schedule = f.schedule ∧
      r.recipients = f.recipients ∧ r.format = "pdf" ∧
      r.is_active = true ∧ r.last_run = none ∧ r.next_run = none := by
  unfold createReport
  rw [if_pos (show ((f.format.map REPORT_FORMATS.contains).getD true) =
    true by rw [hfmt]; rfl)]
  rw [if_pos hdash]
  refine ⟨_, _, rfl, getReport_of_lookup (lookupRec_cons_self _ _ _),
          rfl, rfl, rfl, rfl, ?_, ?_, ?_, ?_⟩
  · rw [hfmt]
    rfl
  · rw [hact]
    rfl
  · exact hlast
  · exact hnext

/-- Report field set for the C8 witness: defaults omitted. -/
def demoReportFields : ReportFields :=
  { title := "Weekly", dashboard := 10, schedule := "0 9 * * MON",
    recipients := "a@x.com" }

theorem C8_witness :
    ∃ t r, createReport demoStore demoReportFields =
        .ok (demoStore.nextId, t) ∧
      getReport t demoStore.nextId = .ok r ∧
      r.title = demoReportFields.title ∧
      r.dashboard = demoReportFields.dashboard ∧
      r.schedule = demoReportFields.schedule ∧
      r.recipients = demoReportFields.recipients ∧ r.format = "pdf" ∧
      r.is_active = true ∧ r.last_run = none ∧ r.next_run = none :=
  C8_report_defaults demoStore demoReportFields rfl rfl rfl rfl
    (by decide)
